import Mathlib

/-!
Shallow embedding of the MultiAgent-Accelerator repository:
the travel agent's FastAPI surface (`src/agents/travel_agent/main.py`),
the Service Bus send/receive helpers (`src/tests/test_servicebus.py`,
`src/scripts/get-async-responses.py`) and the two MCP tool servers
(`src/mcp_servers/currency_mcp/server.py`,
`src/mcp_servers/activity_mcp/server.py`).
-/

set_option maxRecDepth 4096

/-! ## A minimal JSON value model (for response bodies and the agent card) -/

inductive Json where
  | null : Json
  | str (s : String) : Json
  | arr (items : List Json) : Json
  | obj (fields : List (String × Json)) : Json

/-- Keys of a JSON object (empty for non-objects). -/
def Json.keys : Json → List String
  | .obj fields => fields.map Prod.fst
  | _ => []

/-- Field lookup in a JSON object. -/
def Json.getField : Json → String → Option Json
  | .obj fields, k => fields.lookup k
  | _, _ => none

namespace TravelAgent

/-! ## Travel agent HTTP surface — `src/agents/travel_agent/main.py`

The global `travel_agent: Optional[ChatAgent]` is modelled as an
`Option ChatAgent` argument to each handler; the outcome of
`await travel_agent.run(request.task)` is modelled as a `RunOutcome`
argument (the chat completion engine itself is an external
collaborator). -/

/-- The agent object created during lifespan startup.  Its internals
(chat client, MCP tools) are irrelevant to the HTTP contract; only the
instructions string is kept. -/
structure ChatAgent where
  instructions : String
deriving DecidableEq

/-- Result object returned by `travel_agent.run`: `response` is `some`
when `hasattr(result, 'response')` holds, and `strRepr` models
`str(result)`. -/
structure AgentRunResult where
  response : Option String
  strRepr : String
deriving DecidableEq

/-- Outcome of `await travel_agent.run(...)`: normal return or raised
exception. -/
inductive RunOutcome where
  | ok (result : AgentRunResult)
  | exc (msg : String)
deriving DecidableEq

def RunOutcome.isExc : RunOutcome → Bool
  | .ok _ => false
  | .exc _ => true

/-- An HTTP response: status code and JSON body. -/
structure HttpResponse where
  status : Nat
  body : Json

/-- `response_text = result.response if hasattr(result, 'response') else str(result)` -/
def responseText (r : AgentRunResult) : String :=
  match r.response with
  | some v => v
  | none => r.strRepr

/-- A FastAPI `HTTPException(status_code, detail)` becomes a response
with that status and body `{"detail": detail}`. -/
def httpError (status : Nat) (detail : String) : HttpResponse :=
  ⟨status, .obj [("detail", .str detail)]⟩

/-- `GET /health` handler. -/
def health (travel_agent : Option ChatAgent) : HttpResponse :=
  match travel_agent with
  | none => httpError 503 "Agent not initialized"
  | some _ => ⟨200, .obj [("status", .str "healthy")]⟩

/-- Request model `TaskRequest`: `task: str`, `user_id: Optional[str] = "anonymous"`. -/
structure TaskRequest where
  task : String
  user_id : Option String
deriving DecidableEq

/-- Response model `TaskResponse`: `result: str`, `agent: str = "travel_agent"`. -/
structure TaskResponse where
  result : String
  agent : String
deriving DecidableEq

/-- FastAPI serialization of a `TaskResponse`. -/
def TaskResponse.toJson (r : TaskResponse) : Json :=
  .obj [("result", .str r.result), ("agent", .str r.agent)]

/-- `POST /task` handler `execute_task`. -/
def execute_task (travel_agent : Option ChatAgent) (run : RunOutcome) : HttpResponse :=
  match travel_agent with
  | none => httpError 503 "Agent not initialized"
  | some _ =>
    match run with
    | .ok result => ⟨200, (TaskResponse.mk (responseText result) "travel_agent").toJson⟩
    | .exc e => httpError 500 ("Error executing task: " ++ e)

/-- Pydantic-style validation of a JSON request body into a
`TaskRequest`: `task` is a required string; `user_id` defaults to
`"anonymous"` when the field is omitted, is kept verbatim when a string
is supplied, and becomes `none` when JSON `null` is supplied
(`Optional[str]`). -/
def parseTaskRequest (body : Json) : Option TaskRequest :=
  match body with
  | .obj fields =>
    match fields.lookup "task" with
    | some (.str t) =>
      match fields.lookup "user_id" with
      | none => some ⟨t, some "anonymous"⟩
      | some (.str u) => some ⟨t, some u⟩
      | some .null => some ⟨t, none⟩
      | some _ => none
    | _ => none
  | _ => none

/-- The Agent Card document returned by `GET /.well-known/agent.json`,
transcribed field by field from `agent_card` in
`src/agents/travel_agent/main.py`. -/
def agent_card : Json :=
  .obj [
    ("name", .str "travel_agent"),
    ("description", .str "Specialized travel planning agent with currency exchange and activity planning capabilities"),
    ("version", .str "1.0.0"),
    ("capabilities", .obj [
      ("skills", .arr [
        .obj [
          ("id", .str "travel_planning"),
          ("name", .str "Travel Planning"),
          ("description", .str "Create comprehensive travel itineraries with activities, restaurants, and attractions"),
          ("examples", .arr [
            .str "Plan a 3-day trip to Paris",
            .str "Create an itinerary for Tokyo with a budget of $1500",
            .str "Suggest a day trip in Rome starting at 9 AM"])],
        .obj [
          ("id", .str "currency_exchange"),
          ("name", .str "Currency Exchange"),
          ("description", .str "Get real-time exchange rates and convert between 30+ currencies"),
          ("examples", .arr [
            .str "What's the exchange rate from USD to EUR?",
            .str "Convert 500 USD to JPY",
            .str "What currencies are supported?"])],
        .obj [
          ("id", .str "restaurant_recommendations"),
          ("name", .str "Restaurant Recommendations"),
          ("description", .str "Suggest restaurants based on location, budget, and cuisine preferences"),
          ("examples", .arr [
            .str "Recommend restaurants in Paris",
            .str "Find affordable dining options in Tokyo",
            .str "What are the best restaurants in Rome?"])],
        .obj [
          ("id", .str "attraction_discovery"),
          ("name", .str "Attraction Discovery"),
          ("description", .str "Find tourist attractions, museums, landmarks, and activities"),
          ("examples", .arr [
            .str "What are the top attractions in Paris?",
            .str "Find cultural activities in Tokyo",
            .str "List must-see sights in Rome"])]]),
      ("supported_locations", .arr [.str "Paris", .str "Tokyo", .str "Rome"]),
      ("mcp_tools", .arr [.str "currency_tools", .str "activity_tools"])]),
    ("endpoints", .obj [
      ("task", .obj [
        ("url", .str "/task"),
        ("method", .str "POST"),
        ("description", .str "Execute a travel planning task"),
        ("request_schema", .obj [
          ("task", .str "string (required) - The travel planning task to execute"),
          ("user_id", .str "string (optional) - User identifier")])]),
      ("health", .obj [
        ("url", .str "/health"),
        ("method", .str "GET"),
        ("description", .str "Health check endpoint")])]),
    ("protocol", .str "a2a"),
    ("contact", .obj [
      ("author", .str "MAF Team"),
      ("repository", .str "https://github.com/darkanita/MultiAgent-AKS-MAF")])]

/-- The (method, path) routes registered on the FastAPI app, one per
route decorator in `src/agents/travel_agent/main.py`. -/
def appRoutes : List (String × String) :=
  [("GET", "/"), ("GET", "/health"), ("POST", "/task"),
   ("GET", "/.well-known/agent.json")]

/-- One skill object is well-formed: it has `id`, `name`, `description`
fields and a non-empty `examples` array whose elements are all strings. -/
def skillOk (j : Json) : Bool :=
  (j.getField "id").isSome && (j.getField "name").isSome &&
  (j.getField "description").isSome &&
  (match j.getField "examples" with
   | some (.arr items) => !items.isEmpty && items.all (fun e => match e with | .str _ => true | _ => false)
   | _ => false)

end TravelAgent

namespace Sbus

/-! ## Service Bus messaging — `src/tests/test_servicebus.py` and
`src/scripts/get-async-responses.py` -/

/-- A Service Bus message: `str(msg)` yields the body; application
properties are a string-keyed attribute map. -/
structure ServiceBusMessage where
  body : String
  application_properties : List (String × String)
deriving DecidableEq

/-- The message constructed by `send_task_to_queue(task, user_id)` in
`src/tests/test_servicebus.py`: body is the task text, attributes carry
`user_id` and `preferred_agent` (sent as the empty string). -/
def send_task_to_queue (task : String) (user_id : String) : ServiceBusMessage :=
  { body := task,
    application_properties := [("user_id", user_id), ("preferred_agent", "")] }

/-- The fields extracted from one response-queue message. -/
structure ParsedResponse where
  result : String
  user_id : String
  agent : String
  task : String
deriving DecidableEq

/-- How `receive_responses` in `src/scripts/get-async-responses.py`
reads one message: `result = str(msg)` and the three correlation fields
come from `application_properties` with the defaults used there. -/
def readResponseMessage (msg : ServiceBusMessage) : ParsedResponse :=
  { result := msg.body,
    user_id := (msg.application_properties.lookup "user_id").getD "unknown",
    agent := (msg.application_properties.lookup "agent_used").getD "unknown",
    task := (msg.application_properties.lookup "original_task").getD "N/A" }

/-- A response-queue message as the spec's Response Envelope transports
it: result text in the body, correlation fields as attributes. -/
def mkResponseMessage (result user_id agent_used original_task : String) :
    ServiceBusMessage :=
  { body := result,
    application_properties :=
      [("user_id", user_id), ("agent_used", agent_used),
       ("original_task", original_task)] }

/-- An observable event of the `receive_responses` loop: each message is
first processed (its fields printed) and only then completed. -/
inductive RespEvent where
  | processed (msg : ServiceBusMessage)
  | completed (msg : ServiceBusMessage)
deriving DecidableEq

/-- Event trace of the `for` loop in `receive_responses`
(`src/scripts/get-async-responses.py` lines 45-61): for every received
message, processing precedes `receiver.complete_message(msg)`. -/
def receive_responses (msgs : List ServiceBusMessage) : List RespEvent :=
  msgs.flatMap (fun m => [RespEvent.processed m, RespEvent.completed m])

/-! ### Asynchronous worker loop (spec §4.5)

The orchestrator's queue-consuming worker is not part of the source
under `src/`; only its queue collaborators are.  It is modelled from
the spec below. -/

/-- Routing outcome for one inbound message. -/
inductive RouteOutcome where
  | selected (agentName : String)
  | noMatch
deriving DecidableEq

/-- Dispatch outcome for one inbound message: success, a retryable
transport failure, or a terminal agent error. -/
inductive DispatchOutcome where
  | ok (resultText : String)
  | transportFailure (msg : String)
  | agentError (status : Nat) (body : String)
deriving DecidableEq

/-- What happened to one inbound message. -/
structure ProcessResult where
  publishAttempted : Bool
  publishSucceeded : Bool
  acked : Bool
deriving DecidableEq

/-- Modelled from the spec: the orchestrator's Asynchronous Worker Loop
(§4.5) is absent from `src/`.  Per the spec, a successfully dispatched
message and a terminal failure (no matching agent, agent error) both
lead to an outbound publish, and the inbound message is
acknowledged/completed only after that publish succeeds; a retryable
transport failure leaves the message unacknowledged for queue
redelivery, with no publish.  `publishOk` is the outcome of the
outbound publish when one is attempted. -/
def processMessage (route : RouteOutcome) (dispatch : DispatchOutcome)
    (publishOk : Bool) : ProcessResult :=
  match route with
  | .noMatch => ⟨true, publishOk, publishOk⟩
  | .selected _ =>
    match dispatch with
    | .ok _ => ⟨true, publishOk, publishOk⟩
    | .agentError _ _ => ⟨true, publishOk, publishOk⟩
    | .transportFailure _ => ⟨false, false, false⟩

end Sbus

namespace Currency

/-! ## Currency MCP server — `src/mcp_servers/currency_mcp/server.py`

The Frankfurter API call inside each tool is modelled as an explicit
`HttpOutcome` argument: a successful JSON payload, an
`httpx.HTTPStatusError` raised by `raise_for_status()`, or any other
exception.  Numeric amounts and rates are modelled as exact rationals. -/

/-- Left-pad a digit string with zeros to the given width. -/
def padZeros (s : String) (width : Nat) : String :=
  String.mk (List.replicate (width - s.length) '0') ++ s

/-- Python's fixed-point formatting `{x:.d f}` modelled over exact
rationals (round half away from zero). -/
def formatFixed (q : ℚ) (digits : Nat) : String :=
  let scaled : ℚ := q * ((10 : ℚ) ^ digits)
  let r : Int := if 0 ≤ scaled then ⌊scaled + 1/2⌋ else -⌊-scaled + 1/2⌋
  let sign := if r < 0 then "-" else ""
  let a := r.natAbs
  sign ++ toString (a / 10 ^ digits) ++ "." ++ padZeros (toString (a % 10 ^ digits)) digits

/-- JSON payload of a successful Frankfurter response: an optional
`rates` object (currency code to value) and an optional `date` string. -/
structure FrankfurterData where
  rates : Option (List (String × ℚ))
  date : Option String

/-- Outcome of the HTTP request inside a currency tool. -/
inductive HttpOutcome where
  | success (data : FrankfurterData)
  | statusError (code : Nat) (text : String)
  | otherExc (msg : String)

/-- `data.get("date", date)`. -/
def dateOr (data : FrankfurterData) (fallback : String) : String :=
  data.date.getD fallback

/-- `get_exchange_rate(currency_from, currency_to, date)`. -/
def get_exchange_rate (currency_from currency_to date : String)
    (outcome : HttpOutcome) : String :=
  match outcome with
  | .success data =>
    match data.rates with
    | none => "Could not retrieve rate for " ++ currency_from ++ " to " ++ currency_to
    | some rates =>
      match rates.lookup currency_to.toUpper with
      | none => "Could not retrieve rate for " ++ currency_from ++ " to " ++ currency_to
      | some rate =>
        "Exchange rate on " ++ dateOr data date ++ ": 1 " ++
          currency_from.toUpper ++ " = " ++ formatFixed rate 4 ++ " " ++
          currency_to.toUpper
  | .statusError code text => "HTTP error: " ++ toString code ++ " - " ++ text
  | .otherExc msg => "Error fetching exchange rate: " ++ msg

/-- `rate = converted_amount / amount if amount != 0 else 0`. -/
def convertRate (converted_amount amount : ℚ) : ℚ :=
  if amount ≠ 0 then converted_amount / amount else 0

/-- `convert_currency(amount, currency_from, currency_to, date)`. -/
def convert_currency (amount : ℚ) (currency_from currency_to date : String)
    (outcome : HttpOutcome) : String :=
  match outcome with
  | .success data =>
    match data.rates with
    | none => "Could not convert " ++ currency_from ++ " to " ++ currency_to
    | some rates =>
      match rates.lookup currency_to.toUpper with
      | none => "Could not convert " ++ currency_from ++ " to " ++ currency_to
      | some converted_amount =>
        "Conversion on " ++ dateOr data date ++ ":\n" ++
          formatFixed amount 2 ++ " " ++ currency_from.toUpper ++ " = " ++
          formatFixed converted_amount 2 ++ " " ++ currency_to.toUpper ++ "\n" ++
          "Exchange rate: 1 " ++ currency_from.toUpper ++ " = " ++
          formatFixed (convertRate converted_amount amount) 4 ++ " " ++
          currency_to.toUpper
  | .statusError code text => "HTTP error: " ++ toString code ++ " - " ++ text
  | .otherExc msg => "Error converting currency: " ++ msg

/-- Outcome of the HTTP request inside `get_supported_currencies`: a
successful payload maps currency codes to full names.  An
`httpx.HTTPStatusError` is still possible there (from
`raise_for_status()`), but that function's only handler is the generic
`except Exception`, so the error is carried with its Python
`str(e)` rendering. -/
inductive CurrenciesOutcome where
  | success (currencies : List (String × String))
  | statusError (strRepr : String)
  | otherExc (msg : String)

/-- Insertion of one `(code, name)` pair into a list sorted by code. -/
def insertByCode (x : String × String) : List (String × String) → List (String × String)
  | [] => [x]
  | y :: ys => if y.1 < x.1 then y :: insertByCode x ys else x :: y :: ys

/-- `sorted(currencies.items())` (codes are unique, so sorting by code
matches sorting the pairs). -/
def sortByCode (l : List (String × String)) : List (String × String) :=
  l.foldr insertByCode []

/-- `get_supported_currencies()`.  Every exception — the HTTP status
error included — is caught by the single generic handler. -/
def get_supported_currencies (outcome : CurrenciesOutcome) : String :=
  match outcome with
  | .success currencies =>
    "Supported currencies:\n" ++
      String.join ((sortByCode currencies).map
        (fun p => "  " ++ p.1 ++ ": " ++ p.2 ++ "\n"))
  | .statusError strRepr => "Error fetching supported currencies: " ++ strRepr
  | .otherExc msg => "Error fetching supported currencies: " ++ msg

end Currency

namespace Activity

/-! ## Activity MCP server — `src/mcp_servers/activity_mcp/server.py`

The sample databases are transcribed literally.  Ratings are stored as
their rendered text (Python prints the float `4.5` as `"4.5"`). -/

/-- Python `str.lower()` on the ASCII city names used here, modelled at
the character-list level so it evaluates by kernel reduction. -/
def pyLower (s : String) : String :=
  String.mk (s.data.map Char.toLower)

/-- Python `str.title()`: the first letter of every word is upper-cased
and later letters lower-cased (a word boundary is any non-letter). -/
def pyTitleAux : Bool → List Char → List Char
  | _, [] => []
  | prevLetter, c :: cs =>
    if c.isAlpha then
      (if prevLetter then c.toLower else c.toUpper) :: pyTitleAux true cs
    else
      c :: pyTitleAux false cs

def pyTitle (s : String) : String :=
  String.mk (pyTitleAux false s.data)

structure Restaurant where
  name : String
  cuisine : String
  price : String
  rating : String
deriving DecidableEq, Inhabited

structure Attraction where
  name : String
  type : String
  duration : String
  price : String
deriving DecidableEq, Inhabited

def RESTAURANT_DB : List (String × List Restaurant) :=
  [("paris", [
      ⟨"Le Comptoir du Relais", "French Bistro", "€€€", "4.5"⟩,
      ⟨"L'As du Fallafel", "Middle Eastern", "€", "4.7"⟩,
      ⟨"Breizh Café", "Creperie", "€€", "4.6"⟩]),
   ("tokyo", [
      ⟨"Sukiyabashi Jiro", "Sushi", "€€€€", "4.9"⟩,
      ⟨"Ichiran Ramen", "Ramen", "€", "4.5"⟩,
      ⟨"Tsukiji Market", "Seafood", "€€", "4.7"⟩]),
   ("rome", [
      ⟨"Roscioli", "Italian Deli", "€€€", "4.6"⟩,
      ⟨"Pizzarium", "Pizza", "€", "4.8"⟩,
      ⟨"Trattoria Da Enzo", "Traditional Roman", "€€", "4.7"⟩])]

def ATTRACTIONS_DB : List (String × List Attraction) :=
  [("paris", [
      ⟨"Eiffel Tower", "Monument", "2-3 hours", "€26"⟩,
      ⟨"Louvre Museum", "Museum", "3-4 hours", "€17"⟩,
      ⟨"Notre-Dame Cathedral", "Historic Site", "1-2 hours", "Free"⟩,
      ⟨"Sacré-Cœur", "Church", "1-2 hours", "Free"⟩]),
   ("tokyo", [
      ⟨"Senso-ji Temple", "Temple", "1-2 hours", "Free"⟩,
      ⟨"Tokyo Skytree", "Observation Tower", "2-3 hours", "¥2100"⟩,
      ⟨"Meiji Shrine", "Shrine", "1-2 hours", "Free"⟩,
      ⟨"Shibuya Crossing", "Landmark", "30 min", "Free"⟩]),
   ("rome", [
      ⟨"Colosseum", "Historic Site", "2-3 hours", "€18"⟩,
      ⟨"Vatican Museums", "Museum", "3-4 hours", "€17"⟩,
      ⟨"Trevi Fountain", "Landmark", "30 min", "Free"⟩,
      ⟨"Roman Forum", "Archaeological Site", "2 hours", "€16"⟩])]

/-- The body of the `for day in range(1, min(duration_days + 1, 4))`
loop in `create_itinerary`: the morning / lunch / afternoon / dinner
blocks, each guarded by a length check. -/
def renderDay (attractions : List Attraction) (restaurants : List Restaurant)
    (day : Nat) : String :=
  "## Day " ++ toString day ++ "\n\n" ++
  (if attractions.length > (day - 1) * 3 then
    let attr := attractions.getD ((day - 1) * 3) default
    "**Morning (9:00 AM - 12:00 PM)**\n" ++
    "- Visit: " ++ attr.name ++ " (" ++ attr.type ++ ")\n" ++
    "- Duration: " ++ attr.duration ++ "\n" ++
    "- Price: " ++ attr.price ++ "\n\n"
  else "") ++
  (if restaurants.length > (day - 1) * 2 then
    let rest := restaurants.getD ((day - 1) * 2) default
    "**Lunch (12:30 PM - 2:00 PM)**\n" ++
    "- Restaurant: " ++ rest.name ++ "\n" ++
    "- Cuisine: " ++ rest.cuisine ++ "\n" ++
    "- Price Range: " ++ rest.price ++ "\n" ++
    "- Rating: " ++ rest.rating ++ "/5\n\n"
  else "") ++
  (if attractions.length > (day - 1) * 3 + 1 then
    let attr := attractions.getD ((day - 1) * 3 + 1) default
    "**Afternoon (2:30 PM - 5:30 PM)**\n" ++
    "- Visit: " ++ attr.name ++ " (" ++ attr.type ++ ")\n" ++
    "- Duration: " ++ attr.duration ++ "\n" ++
    "- Price: " ++ attr.price ++ "\n\n"
  else "") ++
  (if restaurants.length > (day - 1) * 2 + 1 then
    let rest := restaurants.getD ((day - 1) * 2 + 1) default
    "**Dinner (7:00 PM - 9:00 PM)**\n" ++
    "- Restaurant: " ++ rest.name ++ "\n" ++
    "- Cuisine: " ++ rest.cuisine ++ "\n" ++
    "- Price Range: " ++ rest.price ++ "\n" ++
    "- Rating: " ++ rest.rating ++ "/5\n\n"
  else "")

/-- The day numbers visited by `range(1, min(duration_days + 1, 4))`. -/
def itineraryDays (duration_days : Int) : List Nat :=
  List.range' 1 (min (duration_days + 1) 4 - 1).toNat

/-- The first line of the itinerary. -/
def itineraryHeader (destination : String) (duration_days : Int)
    (budget : String) : String :=
  "# " ++ pyTitle destination ++ " Itinerary (" ++ toString duration_days ++
    " days - " ++ pyTitle budget ++ " Budget)\n\n"

/-- `create_itinerary(destination, duration_days, budget)`.  The source
checks membership in `ATTRACTIONS_DB` only; `RESTAURANT_DB` has the
same keys, so its `getD []` fallback is never taken for a known
destination. -/
def create_itinerary (destination : String) (duration_days : Int)
    (budget : String) : String :=
  let dest_lower := pyLower destination
  if (ATTRACTIONS_DB.lookup dest_lower).isSome then
    let attractions := (ATTRACTIONS_DB.lookup dest_lower).getD []
    let restaurants := (RESTAURANT_DB.lookup dest_lower).getD []
    itineraryHeader destination duration_days budget ++
      String.join ((itineraryDays duration_days).map
        (renderDay attractions restaurants))
  else
    "No data available for " ++ destination ++
      ". Available destinations: Paris, Tokyo, Rome"

/-- The `for i, rest in enumerate(restaurants, 1)` loop of
`suggest_restaurants`. -/
def renderRestaurantList : Nat → List Restaurant → String
  | _, [] => ""
  | i, r :: rs =>
    "## " ++ toString i ++ ". " ++ r.name ++ "\n" ++
    "- **Cuisine**: " ++ r.cuisine ++ "\n" ++
    "- **Price Range**: " ++ r.price ++ "\n" ++
    "- **Rating**: " ++ r.rating ++ "/5 ⭐\n\n" ++
    renderRestaurantList (i + 1) rs

/-- `suggest_restaurants(location, cuisine_type, budget)`.  As in the
source, `cuisine_type` and `budget` are accepted but never read. -/
def suggest_restaurants (location : String) (cuisine_type : String)
    (budget : String) : String :=
  let loc_lower := pyLower location
  match RESTAURANT_DB.lookup loc_lower with
  | none => "No restaurant data for " ++ location ++
      ". Available cities: Paris, Tokyo, Rome"
  | some restaurants =>
    "# Restaurant Recommendations in " ++ pyTitle location ++ "\n\n" ++
      renderRestaurantList 1 restaurants

/-- The `for i, attr in enumerate(attractions, 1)` loop of
`find_attractions`. -/
def renderAttractionList : Nat → List Attraction → String
  | _, [] => ""
  | i, a :: rest =>
    "## " ++ toString i ++ ". " ++ a.name ++ "\n" ++
    "- **Type**: " ++ a.type ++ "\n" ++
    "- **Recommended Duration**: " ++ a.duration ++ "\n" ++
    "- **Entrance Fee**: " ++ a.price ++ "\n\n" ++
    renderAttractionList (i + 1) rest

/-- `find_attractions(location, attraction_type)`.  `attraction_type`
is accepted but never read, as in the source. -/
def find_attractions (location : String) (attraction_type : String) : String :=
  let loc_lower := pyLower location
  match ATTRACTIONS_DB.lookup loc_lower with
  | none => "No attraction data for " ++ location ++
      ". Available cities: Paris, Tokyo, Rome"
  | some attractions =>
    "# Attractions in " ++ pyTitle location ++ "\n\n" ++
      renderAttractionList 1 attractions

end Activity

/-! ## Shared helpers for the theorems -/

/-- `hasPre p s` holds when the string `s` begins with the text `p`
(character-level check). -/
def hasPre (p s : String) : Bool :=
  p.data.isPrefixOf s.data

open TravelAgent Sbus Currency Activity

/-! ## Claims -/

/-- C1: every successful `POST /task` (agent initialized, task
execution does not raise) answers with a JSON object whose fields are
exactly `result` and `agent`, both strings, and the `agent` field is
always `"travel_agent"`. -/
theorem c1_task_success_shape (a : ChatAgent) (r : AgentRunResult) :
    (execute_task (some a) (.ok r)).status = 200 ∧
    (execute_task (some a) (.ok r)).body.keys = ["result", "agent"] ∧
    (execute_task (some a) (.ok r)).body.getField "result" =
      some (.str (responseText r)) ∧
    (execute_task (some a) (.ok r)).body.getField "agent" =
      some (.str "travel_agent") :=
  ⟨rfl, rfl, rfl, rfl⟩

/-- C2: failure is signalled purely by status code — `GET /health` is
200 exactly when the agent is initialized and 503 otherwise; `POST
/task` is 503 exactly when the agent is uninitialized, 500 exactly when
(the agent is initialized and) task execution raises, and 200 exactly
on a non-raising run. -/
theorem c2_status_codes (a : Option ChatAgent) (run : RunOutcome) :
    (((health a).status == 200) = a.isSome) ∧
    (((health a).status == 503) = !a.isSome) ∧
    (((execute_task a run).status == 503) = !a.isSome) ∧
    (((execute_task a run).status == 500) = (a.isSome && run.isExc)) ∧
    (((execute_task a run).status == 200) = (a.isSome && !run.isExc)) := by
  cases a <;> cases run <;> exact ⟨rfl, rfl, rfl, rfl, rfl⟩

/-- C3: an inbound work-queue message built by `send_task_to_queue` has
the task text as its body and carries `user_id` and `preferred_agent`
as application properties, not in the body; a response-queue message,
as `receive_responses` reads it, yields the result from the body and
`user_id`, `agent_used`, `original_task` from the properties. -/
theorem c3_queue_message_layout (task uid r u ag t : String) :
    (send_task_to_queue task uid).body = task ∧
    (send_task_to_queue task uid).application_properties.lookup "user_id" =
      some uid ∧
    (send_task_to_queue task uid).application_properties.lookup
      "preferred_agent" = some "" ∧
    readResponseMessage (mkResponseMessage r u ag t) = ⟨r, u, ag, t⟩ :=
  ⟨rfl, rfl, rfl, rfl⟩

lemma receive_responses_cons (x : ServiceBusMessage)
    (xs : List ServiceBusMessage) :
    receive_responses (x :: xs) =
      .processed x :: .completed x :: receive_responses xs := rfl

/-- In the `receive_responses` trace, every completion event is
immediately preceded by the processing of the same message. -/
lemma completed_follows_processed :
    ∀ (msgs : List ServiceBusMessage) (i : Nat) (m : ServiceBusMessage),
      (receive_responses msgs)[i]? = some (.completed m) →
        1 ≤ i ∧ (receive_responses msgs)[i - 1]? = some (.processed m) := by
  intro msgs
  induction msgs with
  | nil => intro i m h; simp [receive_responses] at h
  | cons x xs ih =>
    intro i m h
    rw [receive_responses_cons] at h
    rcases i with _ | (_ | n)
    · simp at h
    · simp at h
      subst h
      exact ⟨Nat.le_refl 1, by rw [receive_responses_cons]; simp⟩
    · have h' : (receive_responses xs)[n]? = some (.completed m) := by
        simpa using h
      obtain ⟨h1, h2⟩ := ih n m h'
      obtain ⟨k, rfl⟩ := Nat.exists_eq_add_of_le h1
      have h2' : (receive_responses xs)[k]? = some (.processed m) := by
        rw [show 1 + k - 1 = k from by omega] at h2
        exact h2
      refine ⟨by omega, ?_⟩
      rw [receive_responses_cons,
        show 1 + k + 1 + 1 - 1 = k + 2 from by omega]
      simpa using h2'

/-- C4: on the asynchronous path an inbound message is
acknowledged/completed only after the outbound publication (worker
loop, modelled from the spec) — respectively only after the downstream
processing of the response (`receive_responses`); a message whose
publish did not complete is never acknowledged. -/
theorem c4_ack_only_after_publish :
    (∀ (route : RouteOutcome) (dispatch : DispatchOutcome)
        (publishOk : Bool),
      (processMessage route dispatch publishOk).acked = true →
        (processMessage route dispatch publishOk).publishSucceeded = true) ∧
    (∀ (route : RouteOutcome) (dispatch : DispatchOutcome),
      (processMessage route dispatch false).acked = false) ∧
    (∀ (msgs : List ServiceBusMessage) (i : Nat) (m : ServiceBusMessage),
      (receive_responses msgs)[i]? = some (.completed m) →
        1 ≤ i ∧ (receive_responses msgs)[i - 1]? = some (.processed m)) := by
  refine ⟨?_, ?_, completed_follows_processed⟩
  · intro route dispatch publishOk h
    cases route with
    | noMatch => exact h
    | selected _ => cases dispatch <;> simpa using h
  · intro route dispatch
    cases route with
    | noMatch => rfl
    | selected _ => cases dispatch <;> rfl

theorem c4_ack_only_after_publish_witness :
    (processMessage (.selected "travel_agent") (.ok "done") true).publishSucceeded
      = true ∧
    (1 ≤ 1 ∧
      (receive_responses [⟨"result text", []⟩])[1 - 1]? =
        some (.processed ⟨"result text", []⟩)) :=
  ⟨c4_ack_only_after_publish.1 (.selected "travel_agent") (.ok "done") true rfl,
   c4_ack_only_after_publish.2.2 [⟨"result text", []⟩] 1 ⟨"result text", []⟩ rfl⟩

/-- The list of skill objects under `capabilities.skills` of the agent
card (empty if that path were absent). -/
def cardSkillList : List Json :=
  match agent_card.getField "capabilities" with
  | some caps =>
    match caps.getField "skills" with
    | some (.arr skills) => skills
    | _ => []
  | none => []

/-- C5: the agent card is a JSON object with `name`, `description`,
`version` and `capabilities.skills`; its `name` is the non-empty string
`"travel_agent"`, and every skill has `id`, `name`, `description` and a
non-empty all-string `examples` array. -/
theorem c5_agent_card_shape :
    agent_card.getField "name" = some (.str "travel_agent") ∧
    "travel_agent" ≠ "" ∧
    (agent_card.getField "description").isSome = true ∧
    (agent_card.getField "version").isSome = true ∧
    (agent_card.getField "capabilities").isSome = true ∧
    cardSkillList.isEmpty = false ∧
    cardSkillList.all skillOk = true :=
  ⟨rfl, by decide, rfl, rfl, rfl, rfl, rfl⟩

/-- C6: a request accepted by the `TaskRequest` validation whose body
omits `user_id` gets `user_id = "anonymous"`; a request that supplies a
string `user_id` keeps exactly the supplied value. -/
theorem c6_user_id_default (fields : List (String × Json))
    (req : TaskRequest) :
    parseTaskRequest (.obj fields) = some req →
      (fields.lookup "user_id" = none → req.user_id = some "anonymous") ∧
      (∀ u : String, fields.lookup "user_id" = some (.str u) →
        req.user_id = some u) := by
  intro h
  constructor
  · intro hu
    rcases ht : fields.lookup "task" with _ | j
    · simp [parseTaskRequest, ht] at h
    · cases j <;> simp [parseTaskRequest, ht, hu] at h
      rw [← h]
  · intro u hu
    rcases ht : fields.lookup "task" with _ | j
    · simp [parseTaskRequest, ht] at h
    · cases j <;> simp [parseTaskRequest, ht, hu] at h
      rw [← h]

theorem c6_user_id_default_witness :
    (TaskRequest.mk "Plan a 3-day trip to Paris" (some "anonymous")).user_id
      = some "anonymous" ∧
    (TaskRequest.mk "Convert 500 USD to EUR" (some "u1")).user_id
      = some "u1" :=
  ⟨(c6_user_id_default [("task", .str "Plan a 3-day trip to Paris")]
      ⟨"Plan a 3-day trip to Paris", some "anonymous"⟩ rfl).1 rfl,
   (c6_user_id_default
      [("task", .str "Convert 500 USD to EUR"), ("user_id", .str "u1")]
      ⟨"Convert 500 USD to EUR", some "u1"⟩ rfl).2 "u1" rfl⟩

/-- C7: the endpoint descriptors in the agent card match the routes the
app registers — the card advertises `POST /task` and `GET /health`,
both are registered, and the registered routes use exactly those
methods on those paths. -/
theorem c7_card_routes_consistent :
    ((agent_card.getField "endpoints").bind (·.getField "task")
      |>.bind (·.getField "url")) = some (.str "/task") ∧
    ((agent_card.getField "endpoints").bind (·.getField "task")
      |>.bind (·.getField "method")) = some (.str "POST") ∧
    ((agent_card.getField "endpoints").bind (·.getField "health")
      |>.bind (·.getField "url")) = some (.str "/health") ∧
    ((agent_card.getField "endpoints").bind (·.getField "health")
      |>.bind (·.getField "method")) = some (.str "GET") ∧
    ("POST", "/task") ∈ appRoutes ∧
    ("GET", "/health") ∈ appRoutes ∧
    appRoutes.all (fun r =>
      (!(r.2 == "/task") || (r.1 == "POST")) &&
      (!(r.2 == "/health") || (r.1 == "GET"))) = true :=
  ⟨rfl, rfl, rfl, rfl, by decide, by decide, rfl⟩

lemma list_isPrefixOf_append (l r : List Char) :
    l.isPrefixOf (l ++ r) = true := by
  induction l with
  | nil => simp
  | cons a as ih => simp [List.isPrefixOf, ih]

/-- A string extended on the right keeps its head text. -/
lemma hasPre_append (p r : String) : hasPre p (p ++ r) = true := by
  rw [hasPre, String.data_append]
  exact list_isPrefixOf_append p.data r.data

/-- C8 counterexample: the claim says an HTTP status failure yields an
"HTTP error: ..." string for all three currency tools, but
`get_supported_currencies` catches `raise_for_status()`'s
`HTTPStatusError` with its single generic handler, so at this concrete
outcome the output starts with "Error fetching supported currencies: "
and not with "HTTP error: ". -/
theorem c8_counterexample :
    hasPre "HTTP error: "
      (get_supported_currencies
        (.statusError "Server error '500 Internal Server Error'")) = false ∧
    hasPre "Error fetching supported currencies: "
      (get_supported_currencies
        (.statusError "Server error '500 Internal Server Error'")) = true :=
  ⟨rfl, rfl⟩

/-- C8 (amended): the currency tools are total at their interface —
every modelled HTTP outcome yields a string.  For `get_exchange_rate`
and `convert_currency`, HTTP status failures yield an "HTTP error: ..."
string and all other exceptions an "Error ..." string;
`get_supported_currencies` yields an "Error ..." string for every
failure, HTTP status failures included.  The rate division in
`convert_currency` is guarded: amount = 0 reports rate 0. -/
theorem c8_currency_totality (cf ct d text msg s : String) (code : Nat)
    (amount converted : ℚ) :
    hasPre "HTTP error: " (get_exchange_rate cf ct d (.statusError code text))
      = true ∧
    hasPre "Error " (get_exchange_rate cf ct d (.otherExc msg)) = true ∧
    hasPre "HTTP error: "
      (convert_currency amount cf ct d (.statusError code text)) = true ∧
    hasPre "Error " (convert_currency amount cf ct d (.otherExc msg)) = true ∧
    hasPre "Error " (get_supported_currencies (.statusError s)) = true ∧
    hasPre "Error " (get_supported_currencies (.otherExc msg)) = true ∧
    convertRate converted 0 = 0 := by
  refine ⟨?_, rfl, ?_, rfl, rfl, rfl, rfl⟩
  · show hasPre "HTTP error: "
      ("HTTP error: " ++ toString code ++ " - " ++ text) = true
    rw [String.append_assoc, String.append_assoc]
    exact hasPre_append _ _
  · show hasPre "HTTP error: "
      ("HTTP error: " ++ toString code ++ " - " ++ text) = true
    rw [String.append_assoc, String.append_assoc]
    exact hasPre_append _ _

/-- C9: the activity recommendation tools depend only on the location:
the ignored `cuisine_type` / `budget` / `attraction_type` arguments
never influence the output (two-run noninterference). -/
theorem c9_location_only_noninterference
    (location cuisine_type1 budget1 cuisine_type2 budget2
      attraction_type1 attraction_type2 : String) :
    suggest_restaurants location cuisine_type1 budget1 =
      suggest_restaurants location cuisine_type2 budget2 ∧
    find_attractions location attraction_type1 =
      find_attractions location attraction_type2 :=
  ⟨rfl, rfl⟩

lemma create_itinerary_known (dest : String) (d : Int) (b : String)
    (h : (ATTRACTIONS_DB.lookup (pyLower dest)).isSome = true) :
    create_itinerary dest d b =
      itineraryHeader dest d b ++
        String.join ((itineraryDays d).map
          (renderDay ((ATTRACTIONS_DB.lookup (pyLower dest)).getD [])
            ((RESTAURANT_DB.lookup (pyLower dest)).getD []))) := by
  rw [create_itinerary]
  simp only [h, if_true]

lemma itineraryDays_of_ge (d : Int) (h : 3 ≤ d) :
    itineraryDays d = [1, 2, 3] := by
  rw [itineraryDays, show min (d + 1) 4 = 4 from by omega]
  rfl

/-- C10: for a known destination and any `duration_days ≥ 3`,
`create_itinerary` renders exactly days 1–3 and equals the 3-day
itinerary except for the duration in the header; for a destination not
in the sample database (case-insensitively), it returns the "No data
available" message. -/
theorem c10_itinerary_day_cap (destination budget : String)
    (duration_days : Int) :
    (3 ≤ duration_days →
      (ATTRACTIONS_DB.lookup (pyLower destination)).isSome = true →
        itineraryDays duration_days = [1, 2, 3] ∧
        ∃ body,
          create_itinerary destination duration_days budget =
            itineraryHeader destination duration_days budget ++ body ∧
          create_itinerary destination 3 budget =
            itineraryHeader destination 3 budget ++ body) ∧
    ((ATTRACTIONS_DB.lookup (pyLower destination)).isSome = false →
      create_itinerary destination duration_days budget =
        "No data available for " ++ destination ++
          ". Available destinations: Paris, Tokyo, Rome") := by
  constructor
  · intro h3 hknown
    refine ⟨itineraryDays_of_ge _ h3, ?_⟩
    refine ⟨String.join ((itineraryDays 3).map
      (renderDay ((ATTRACTIONS_DB.lookup (pyLower destination)).getD [])
        ((RESTAURANT_DB.lookup (pyLower destination)).getD []))), ?_, ?_⟩
    · rw [create_itinerary_known destination duration_days budget hknown,
        itineraryDays_of_ge duration_days h3,
        itineraryDays_of_ge 3 (by omega)]
    · exact create_itinerary_known destination 3 budget hknown
  · intro hmiss
    rw [create_itinerary]
    simp [hmiss]

theorem c10_itinerary_day_cap_witness :
    (itineraryDays 5 = [1, 2, 3] ∧
      ∃ body,
        create_itinerary "Paris" 5 "moderate" =
          itineraryHeader "Paris" 5 "moderate" ++ body ∧
        create_itinerary "Paris" 3 "moderate" =
          itineraryHeader "Paris" 3 "moderate" ++ body) ∧
    create_itinerary "Berlin" 2 "budget" =
      "No data available for Berlin. Available destinations: Paris, Tokyo, Rome" :=
  ⟨(c10_itinerary_day_cap "Paris" "moderate" 5).1 (by decide) (by decide),
   (c10_itinerary_day_cap "Berlin" "budget" 2).2 (by decide)⟩
